import Mathlib

/-!
Shallow embedding of the BrickByBrick backend's spaced-repetition scheduler,
topic-progress recomputation, and analytics aggregation logic.

Modelling conventions:
- Calendar dates are integers counting days (time-of-day is irrelevant to all
  modelled code paths: the source strips it with `setHours(0,0,0,0)` or
  `toISOString().split('T')[0]` before comparing).
- JavaScript `Math.round(x)` on a nonnegative rational `a / b` is embedded as
  natural-number division `(2 * a + b) / (2 * b)` (round half up).
- Quantities the source keeps as floats rounded to one decimal (learning hours)
  are represented in integer tenths.
- Persistence is explicit state passing; a Boolean fault flag models a failing
  database write, and fallible operations return an explicit result value.
-/

namespace BBB

/-- JavaScript `Math.round((solved / total) * 100)` for natural inputs
(round half up), used by every success-rate computation in the source. -/
def jsRound100 (solved total : Nat) : Nat :=
  (200 * solved + total) / (2 * total)

/-- JavaScript `Math.round(a / b)` for natural inputs (round half up). -/
def jsRoundDiv (a b : Nat) : Nat :=
  (2 * a + b) / (2 * b)

/-- Embeds `calculateSuccessRate` from `src/utils/helpers.js`:
`if (total === 0) return 0; return Math.round((solved / total) * 100)`. -/
def calculateSuccessRate (solved total : Nat) : Nat :=
  if total = 0 then 0 else jsRound100 solved total

/-! ## Revision scheduler (`src/controllers/revisionController.js`) -/

/-- A row of the RevisionItem table; fields restricted to those the scheduler
reads or writes. Dates are day numbers. -/
structure RevisionItem where
  id : Nat
  itemId : Nat
  itemType : String
  originalDate : Int
  nextRevisionDate : Int
  revisionCycle : Nat
  isCompleted : Bool
  completedDate : Option Int
  userId : Nat
deriving Repr, DecidableEq

/-- The spaced-repetition interval table from `completeRevisionItem`:
`const intervals = [1, 3, 7, 15, 30]`. -/
def intervals : List Nat := [1, 3, 7, 15, 30]

/-- Embeds `intervals[nextCycle - 1] || 30` from `completeRevisionItem`
(an out-of-range index yields `undefined`, and `undefined || 30` is 30). -/
def daysToAdd (nextCycle : Nat) : Nat :=
  intervals.getD (nextCycle - 1) 30

/-- The interval function as the specification words it:
`interval(c) = table[min(c,5)-1]` with table = [1,3,7,15,30]. -/
def specInterval (c : Nat) : Nat :=
  intervals.getD (min c 5 - 1) 30

/-- The RevisionItem table plus the id the next insert will receive. -/
structure RevisionStore where
  items : List RevisionItem
  nextId : Nat
deriving Repr, DecidableEq

/-- Outcome of `completeRevisionItem`: 404 when the id is unknown, the caught
exception path when a write fails, or success carrying the updated row and the
newly created successor row. -/
inductive CompleteResult where
  | notFound
  | error
  | ok (completed next : RevisionItem)
deriving Repr, DecidableEq

/-- The update `completeRevisionItem` applies to the found row:
`{ isCompleted: true, completedDate: today }`. -/
def markCompleted (today : Int) (it : RevisionItem) : RevisionItem :=
  { it with isCompleted := true, completedDate := some today }

/-- The successor row `completeRevisionItem` inserts: same item reference and
owner, cycle advanced by one, due `today + (intervals[nextCycle - 1] || 30)`. -/
def successorItem (st : RevisionStore) (item : RevisionItem) (today : Int) :
    RevisionItem :=
  { id := st.nextId
    itemId := item.itemId
    itemType := item.itemType
    originalDate := item.originalDate
    nextRevisionDate := today + (daysToAdd (item.revisionCycle + 1) : Int)
    revisionCycle := item.revisionCycle + 1
    isCompleted := false
    completedDate := none
    userId := item.userId }

/-- Embeds `completeRevisionItem` from `src/controllers/revisionController.js`.
The handler looks the row up by primary key (404 when absent), marks it
completed with today's date, then inserts the next-cycle row; there is no
transaction and no check of the current `isCompleted` flag. `updateFails` and
`createFails` model the two database writes throwing, which the source catches
and turns into an error response. -/
def completeRevisionItem (st : RevisionStore) (id : Nat) (today : Int)
    (updateFails createFails : Bool) : RevisionStore × CompleteResult :=
  match st.items.find? (fun it => it.id == id) with
  | none => (st, .notFound)
  | some item =>
    if updateFails then (st, .error)
    else
      let st1 : RevisionStore :=
        { st with
          items := st.items.map
            (fun it => if it.id == id then markCompleted today it else it) }
      if createFails then (st1, .error)
      else
        let next := successorItem st item today
        ({ items := st1.items ++ [next], nextId := st.nextId + 1 },
          .ok (markCompleted today item) next)

/-- Embeds the revision-item insertion in `createProblem`
(`src/controllers/problemController.js`): performed only when the request's
`isRevision` flag is set, with `revisionCycle: 1`, `isCompleted: false`, and
`nextRevisionDate` one day after the creation date
(`nextRevisionDate.setDate(today.getDate() + 1)`). -/
def problemRevisionOnCreate (isRevision : Bool) (newId problemId : Nat)
    (originalDate today : Int) (userId : Nat) : Option RevisionItem :=
  if isRevision then
    some
      { id := newId
        itemId := problemId
        itemType := "problem"
        originalDate := originalDate
        nextRevisionDate := today + 1
        revisionCycle := 1
        isCompleted := false
        completedDate := none
        userId := userId }
  else none

/-- Embeds the revision-item insertion in `createLearningItem`
(`src/controllers/learningController.js`); identical to the problem case
except the discriminator is `"learning"`. -/
def learningRevisionOnCreate (isRevision : Bool) (newId learningItemId : Nat)
    (originalDate today : Int) (userId : Nat) : Option RevisionItem :=
  if isRevision then
    some
      { id := newId
        itemId := learningItemId
        itemType := "learning"
        originalDate := originalDate
        nextRevisionDate := today + 1
        revisionCycle := 1
        isCompleted := false
        completedDate := none
        userId := userId }
  else none

/-! ## Analytics aggregation (`src/controllers/analyticsController.js`,
duplicated in the analytics service in `src/utils/helpers.js`) -/

/-- A Problem row, restricted to the fields the analytics code reads.
`date` is the calendar day of the attempt. -/
structure Problem where
  topic : String
  difficulty : String
  outcome : String
  date : Int
  timeSpent : Nat
deriving Repr, DecidableEq

/-- A LearningItem row, restricted to the fields the analytics code reads. -/
structure LearningItem where
  status : String
  timeSpent : Nat
  createdAt : Int
deriving Repr, DecidableEq

/-- A Roadmap row, restricted to the fields the analytics code reads. -/
structure Roadmap where
  isCompleted : Bool
deriving Repr, DecidableEq

/-- Sum of `timeSpent` over problems, as `reduce((t, p) => t + (p.timeSpent || 0), 0)`. -/
def sumTimeP (ps : List Problem) : Nat :=
  ps.foldl (fun acc p => acc + p.timeSpent) 0

/-- Sum of `timeSpent` over learning items. -/
def sumTimeL (ls : List LearningItem) : Nat :=
  ls.foldl (fun acc l => acc + l.timeSpent) 0

/-- Distinct values in first-occurrence order, tracking the values already
seen. -/
def firstOccurrencesAux : List String → List String → List String
  | _, [] => []
  | seen, t :: ts =>
    if t ∈ seen then firstOccurrencesAux seen ts
    else t :: firstOccurrencesAux (t :: seen) ts

/-- Distinct values in first-occurrence order: the key order of the JavaScript
object built by `topicStats[problem.topic]` (and of `new Set(...)`). -/
def firstOccurrences (l : List String) : List String :=
  firstOccurrencesAux [] l

/-- Descending comparison on `date` used by
`.sort((a, b) => new Date(b.date) - new Date(a.date))`. -/
def dateDesc (a b : Problem) : Bool :=
  decide (b.date ≤ a.date)

/-- One pass of the second `for (const problem of sortedProblems)` loop of the
streak computation: a problem dated exactly `checkDate` extends the streak and
moves the pointer back a day; an older problem only moves the pointer back
(a gap does not reset the count); a newer problem is passed over. -/
def streakWalk : List Problem → Int → Nat → Nat
  | [], _, acc => acc
  | p :: rest, checkDate, acc =>
    if p.date = checkDate then streakWalk rest (checkDate - 1) (acc + 1)
    else if p.date < checkDate then streakWalk rest (checkDate - 1) acc
    else streakWalk rest checkDate acc

/-- Embeds `calculateCurrentStreak`: filter to solved problems, sort descending
by date; if none is dated today the streak is 0, otherwise it is 1 for today
plus the result of walking the whole sorted list backward from yesterday. -/
def calculateCurrentStreak (today : Int) (problems : List Problem) : Nat :=
  let sorted :=
    (problems.filter (fun p => p.outcome == "solved")).mergeSort dateDesc
  if sorted.isEmpty then 0
  else if sorted.any (fun p => p.date == today) then
    streakWalk sorted (today - 1) 1
  else 0

/-- The overview section of the report. `totalLearningHoursTenths` holds the
source's `Math.round(totalLearningHours * 10)`, i.e. hours in tenths. -/
structure Overview where
  totalProblems : Nat
  totalLearningHoursTenths : Nat
  currentStreak : Nat
  successRate : Nat
  averageTimePerProblem : Nat
  totalTopics : Nat
  completedRoadmaps : Nat
deriving Repr, DecidableEq

/-- Embeds `calculateOverviewMetrics` (lines 433-452 of the analytics chunk of
`src/utils/helpers.js`); every possibly-zero denominator is guarded by a
`total > 0` ternary in the source. -/
def calculateOverviewMetrics (today : Int) (problems : List Problem)
    (learningItems : List LearningItem) (roadmaps : List Roadmap) : Overview :=
  let totalProblems := problems.length
  let solvedProblems := (problems.filter (fun p => p.outcome == "solved")).length
  { totalProblems := totalProblems
    totalLearningHoursTenths := jsRoundDiv (sumTimeL learningItems) 6
    currentStreak := calculateCurrentStreak today problems
    successRate :=
      if totalProblems > 0 then jsRound100 solvedProblems totalProblems else 0
    averageTimePerProblem :=
      if totalProblems > 0 then jsRoundDiv (sumTimeP problems) totalProblems else 0
    totalTopics := (firstOccurrences (problems.map (fun p => p.topic))).length
    completedRoadmaps := (roadmaps.filter (fun r => r.isCompleted)).length }

/-- An entry of the daily-activity section (last 7 days, oldest first). -/
structure DayEntry where
  date : Int
  problemsSolved : Nat
  learningHoursTenths : Nat
deriving Repr, DecidableEq

/-- Embeds the `dailyActivity` loop (`for (let i = 6; i >= 0; i--)`): per day,
the count of problems solved that day and the learning hours of items created
that day. -/
def dailyActivity (today : Int) (problems : List Problem)
    (learningItems : List LearningItem) : List DayEntry :=
  (List.range 7).map (fun j =>
    let d : Int := today - (6 - (j : Int))
    { date := d
      problemsSolved :=
        (problems.filter (fun p => p.date == d && p.outcome == "solved")).length
      learningHoursTenths :=
        jsRoundDiv (sumTimeL (learningItems.filter (fun l => l.createdAt == d))) 6 })

/-- An entry of the weekly-progress section (`{ week, problemsSolved, successRate }`). -/
structure WeekEntry where
  week : Nat
  problemsSolved : Nat
  successRate : Nat
deriving Repr, DecidableEq

/-- One iteration of the `weeklyProgress` loop: `weekProblems` is filtered to
solved problems dated inside [weekStart, weekStart+6]; the rate then divides
the solved-filtered count of that already solved-only set by its length,
guarded by `weekProblems.length > 0`. -/
def weekEntryFor (problems : List Problem) (weekStart : Int) (label : Nat) :
    WeekEntry :=
  let weekProblems := problems.filter (fun p =>
    decide (weekStart ≤ p.date) && decide (p.date ≤ weekStart + 6) &&
      p.outcome == "solved")
  { week := label
    problemsSolved := weekProblems.length
    successRate :=
      if weekProblems.length > 0 then
        jsRound100 (weekProblems.filter (fun p => p.outcome == "solved")).length
          weekProblems.length
      else 0 }

/-- Embeds the `weeklyProgress` loop (`for (let i = 3; i >= 0; i--)`).
`dow` is `weekStart.getDay()` for today (0 = Sunday), so
`weekStart = today - (dow + i * 7)` is the Sunday of the week, oldest first. -/
def weeklyProgress (today : Int) (dow : Nat) (problems : List Problem) :
    List WeekEntry :=
  (List.range 4).map (fun j =>
    let i : Nat := 3 - j
    weekEntryFor problems (today - ((dow : Int) + (i : Int) * 7)) (4 - i))

/-- A per-topic entry of the topic analysis. -/
structure TopicStat where
  topic : String
  totalProblems : Nat
  solvedProblems : Nat
  successRate : Nat
  averageTime : Nat
deriving Repr, DecidableEq

/-- The per-topic statistics built by the `topicStats` accumulation and the
`Object.entries(topicStats).map(...)` projection; a topic's `total` is at
least 1 for every key that exists, so the unguarded `solved / total` division
in the source never sees a zero denominator. -/
def topicStatFor (problems : List Problem) (t : String) : TopicStat :=
  let ps := problems.filter (fun p => p.topic == t)
  let solved := (ps.filter (fun p => p.outcome == "solved")).length
  { topic := t
    totalProblems := ps.length
    solvedProblems := solved
    successRate := jsRound100 solved ps.length
    averageTime := jsRoundDiv (sumTimeP ps) ps.length }

/-- Descending comparison on `successRate` used by
`.sort((a, b) => b.successRate - a.successRate)`. -/
def rateDesc (a b : TopicStat) : Bool :=
  decide (b.successRate ≤ a.successRate)

/-- The sorted per-topic list (`topicAnalysis` in the source): one entry per
distinct topic, in key order, sorted descending by success rate (stable). -/
def topicAnalysisList (problems : List Problem) : List TopicStat :=
  ((firstOccurrences (problems.map (fun p => p.topic))).map
    (topicStatFor problems)).mergeSort rateDesc

/-- An entry of the topic-distribution list. -/
structure TopicDist where
  topic : String
  count : Nat
  percentage : Nat
deriving Repr, DecidableEq

/-- Descending comparison on `count` used by `.sort((a, b) => b.count - a.count)`. -/
def countDesc (a b : TopicDist) : Bool :=
  decide (b.count ≤ a.count)

/-- The topic-analysis section: top five of the sorted list, bottom five
reversed (`slice(0, 5)` and `slice(-5).reverse()`), and the distribution. -/
structure TopicAnalysis where
  strongestTopics : List TopicStat
  weakestTopics : List TopicStat
  topicDistribution : List TopicDist
deriving Repr, DecidableEq

/-- Embeds `calculateTopicAnalysis` (lines 573-613 of the analytics chunk of
`src/utils/helpers.js`). The source's `Math.round(... / problems.length) || 0`
turns the `NaN` produced when there are no problems into 0; with no problems
there are no topics either, so the guard is modelled by an explicit ternary. -/
def calculateTopicAnalysis (problems : List Problem) : TopicAnalysis :=
  let sorted := topicAnalysisList problems
  { strongestTopics := sorted.take 5
    weakestTopics := (sorted.drop (sorted.length - 5)).reverse
    topicDistribution :=
      ((firstOccurrences (problems.map (fun p => p.topic))).map (fun t =>
        let count := (problems.filter (fun p => p.topic == t)).length
        { topic := t
          count := count
          percentage :=
            if problems.length = 0 then 0
            else jsRound100 count problems.length : TopicDist })).mergeSort countDesc }

/-- One difficulty bucket of the difficulty analysis. -/
structure DiffBucket where
  solved : Nat
  total : Nat
  successRate : Nat
deriving Repr, DecidableEq

/-- The statistics of one fixed difficulty bucket, with the
`total > 0` success-rate guard of the source. -/
def diffBucket (problems : List Problem) (d : String) : DiffBucket :=
  let ps := problems.filter (fun p => p.difficulty == d)
  let solved := (ps.filter (fun p => p.outcome == "solved")).length
  { solved := solved
    total := ps.length
    successRate := if ps.length > 0 then jsRound100 solved ps.length else 0 }

/-- The difficulty-analysis section: fixed easy/medium/hard buckets. -/
structure DifficultyAnalysis where
  easyProblems : DiffBucket
  mediumProblems : DiffBucket
  hardProblems : DiffBucket
deriving Repr, DecidableEq

/-- Embeds `calculateDifficultyAnalysis`: problems whose difficulty is not one
of the three fixed keys fall into no bucket (`if (difficultyStats[...])`). -/
def calculateDifficultyAnalysis (problems : List Problem) : DifficultyAnalysis :=
  { easyProblems := diffBucket problems "easy"
    mediumProblems := diffBucket problems "medium"
    hardProblems := diffBucket problems "hard" }

/-- The learning-progress section (computed fields only; the source also emits
constant placeholder fields). -/
structure LearningProgress where
  coursesCompleted : Nat
  coursesInProgress : Nat
  totalLearningHoursTenths : Nat
deriving Repr, DecidableEq

/-- Embeds `calculateLearningProgress`. -/
def calculateLearningProgress (learningItems : List LearningItem) :
    LearningProgress :=
  { coursesCompleted :=
      (learningItems.filter (fun l => l.status == "completed")).length
    coursesInProgress :=
      (learningItems.filter (fun l => l.status == "in-progress")).length
    totalLearningHoursTenths := jsRoundDiv (sumTimeL learningItems) 6 }

/-- The roadmap-progress section. -/
structure RoadmapProgress where
  totalRoadmaps : Nat
  completedRoadmaps : Nat
  inProgressRoadmaps : Nat
deriving Repr, DecidableEq

/-- Embeds `calculateRoadmapProgress`. -/
def calculateRoadmapProgress (roadmaps : List Roadmap) : RoadmapProgress :=
  { totalRoadmaps := roadmaps.length
    completedRoadmaps := (roadmaps.filter (fun r => r.isCompleted)).length
    inProgressRoadmaps := (roadmaps.filter (fun r => !r.isCompleted)).length }

/-- The computed sections of the analytics report (the source's remaining
sections — best-performing hours, productivity patterns, AI insights — are
hard-coded constants and carry no computed content). -/
structure Analytics where
  overview : Overview
  dailyActivity : List DayEntry
  weeklyProgress : List WeekEntry
  topicAnalysis : TopicAnalysis
  difficultyAnalysis : DifficultyAnalysis
  learningProgress : LearningProgress
  roadmapProgress : RoadmapProgress
deriving Repr, DecidableEq

/-- The pure aggregation over the already-fetched arrays. -/
def computeAnalytics (today : Int) (dow : Nat) (problems : List Problem)
    (learningItems : List LearningItem) (roadmaps : List Roadmap) : Analytics :=
  { overview := calculateOverviewMetrics today problems learningItems roadmaps
    dailyActivity := dailyActivity today problems learningItems
    weeklyProgress := weeklyProgress today dow problems
    topicAnalysis := calculateTopicAnalysis problems
    difficultyAnalysis := calculateDifficultyAnalysis problems
    learningProgress := calculateLearningProgress learningItems
    roadmapProgress := calculateRoadmapProgress roadmaps }

/-- Result of a core operation at the persistence boundary: a value, or an
Internal error surfaced to the caller. -/
inductive CoreResult (α : Type) where
  | ok (a : α)
  | internalError
deriving Repr, DecidableEq

/-- Embeds `getAnalytics` of the analytics service (`src/utils/helpers.js`,
lines 332-363 of the analytics chunk): any failure of the persistence reads is
caught and re-thrown as `AppError('Failed to calculate analytics', 500)`,
an Internal error; otherwise the pure aggregation runs. `fetchFails` models
the persistence reads throwing. -/
def getAnalyticsService (fetchFails : Bool) (today : Int) (dow : Nat)
    (problems : List Problem) (learningItems : List LearningItem)
    (roadmaps : List Roadmap) : CoreResult Analytics :=
  if fetchFails then .internalError
  else .ok (computeAnalytics today dow problems learningItems roadmaps)

/-! ## Topic progress counters (`src/controllers/roadmapController.js`) -/

/-- A Subtopic row, restricted to the fields the progress logic touches. -/
structure Subtopic where
  id : Nat
  topicId : Nat
  isCompleted : Bool
  completedDate : Option Int
deriving Repr, DecidableEq

/-- A Topic row, restricted to the denormalized counters. -/
structure Topic where
  id : Nat
  totalSubtopics : Nat
  completedSubtopics : Nat
deriving Repr, DecidableEq

/-- The Topic and Subtopic tables. -/
structure RoadmapState where
  topics : List Topic
  subtopics : List Subtopic
deriving Repr, DecidableEq

/-- The two `Subtopic.count` queries of `updateTopicProgress`: all subtopics of
the topic, and the completed ones. -/
def subtopicCounts (subs : List Subtopic) (topicId : Nat) : Nat × Nat :=
  ((subs.filter (fun s => s.topicId == topicId)).length,
   (subs.filter (fun s => s.topicId == topicId && s.isCompleted)).length)

/-- Embeds `updateTopicProgress`: recompute both counters from the Subtopic
table and write them onto the Topic row. A thrown persistence error is caught,
logged, and replaced by a success-shaped `{ totalSubtopics: 0,
completedSubtopics: 0 }` return value with no Topic update (`storeFails`
models the persistence calls throwing). -/
def updateTopicProgress (st : RoadmapState) (topicId : Nat)
    (storeFails : Bool) : RoadmapState × CoreResult (Nat × Nat) :=
  if storeFails then (st, .ok (0, 0))
  else
    let counts := subtopicCounts st.subtopics topicId
    ({ st with
        topics := st.topics.map (fun t =>
          if t.id == topicId then
            { t with totalSubtopics := counts.1, completedSubtopics := counts.2 }
          else t) },
      .ok counts)

/-- Embeds `createSubtopic` (success path): insert the row (a new subtopic is
not completed), then recompute the parent topic's counters. -/
def createSubtopic (st : RoadmapState) (newId topicId : Nat) : RoadmapState :=
  let st1 : RoadmapState :=
    { st with
      subtopics := st.subtopics ++
        [{ id := newId, topicId := topicId, isCompleted := false,
           completedDate := none }] }
  (updateTopicProgress st1 topicId false).1

/-- Embeds `completeSubtopic`: 404 when the id is unknown; otherwise set the
flag and completion date, then recompute the parent topic's counters. -/
def completeSubtopic (st : RoadmapState) (subtopicId : Nat) (today : Int) :
    Option RoadmapState :=
  match st.subtopics.find? (fun s => s.id == subtopicId) with
  | none => none
  | some s =>
    let st1 : RoadmapState :=
      { st with
        subtopics := st.subtopics.map (fun x =>
          if x.id == subtopicId then
            { x with isCompleted := true, completedDate := some today }
          else x) }
    some (updateTopicProgress st1 s.topicId false).1

/-- Embeds `uncompleteSubtopic`: 404 when the id is unknown; otherwise clear
the flag and completion date, then recompute the parent topic's counters. -/
def uncompleteSubtopic (st : RoadmapState) (subtopicId : Nat) :
    Option RoadmapState :=
  match st.subtopics.find? (fun s => s.id == subtopicId) with
  | none => none
  | some s =>
    let st1 : RoadmapState :=
      { st with
        subtopics := st.subtopics.map (fun x =>
          if x.id == subtopicId then
            { x with isCompleted := false, completedDate := none }
          else x) }
    some (updateTopicProgress st1 s.topicId false).1

/-- The invariant of claim C8: every Topic row's completed counter is bounded
by its total counter. -/
def TopicInvariant (st : RoadmapState) : Prop :=
  ∀ t ∈ st.topics, t.completedSubtopics ≤ t.totalSubtopics

instance (st : RoadmapState) : Decidable (TopicInvariant st) :=
  List.decidableBAll _ st.topics

/-- The counters of every Topic row with the given id agree with a fresh
recomputation from the Subtopic table. -/
def countersFresh (st : RoadmapState) (topicId : Nat) : Prop :=
  ∀ t ∈ st.topics, t.id = topicId →
    t.totalSubtopics = (subtopicCounts st.subtopics topicId).1 ∧
    t.completedSubtopics = (subtopicCounts st.subtopics topicId).2

/-! ## Theorems -/

/-- The code's clamping (`intervals[nextCycle - 1] || 30`) agrees with the
specification's formula `table[min(c,5)-1]` at every cycle number. -/
theorem daysToAdd_eq_specInterval (c : Nat) : daysToAdd c = specInterval c := by
  by_cases h : c ≤ 5
  · interval_cases c <;> rfl
  · have h5 : min c 5 = 5 := by omega
    have hlen : intervals.length ≤ c - 1 := by
      simp only [intervals, List.length_cons, List.length_nil]
      omega
    unfold daysToAdd specInterval
    rw [h5, List.getD_eq_default _ _ hlen]
    rfl

/-- C1: completing a RevisionItem at cycle c marks it completed with today's
date and creates exactly one successor for the same (itemId, itemType, userId)
at cycle c+1, due `today + interval(c+1)` days with
`interval(c) = table[min(c,5)-1]`, table = [1,3,7,15,30]. Completing a cycle-1
item on day 19724 (2024-01-02) yields a cycle-2 item due day 19727
(2024-01-05); see the witness. -/
theorem completeRevisionItem_marks_and_chains (st : RevisionStore) (id : Nat)
    (today : Int) (item : RevisionItem)
    (hfind : st.items.find? (fun it => it.id == id) = some item) :
    ∃ next : RevisionItem,
      completeRevisionItem st id today false false =
        ({ items :=
            st.items.map
              (fun it => if it.id == id then markCompleted today it else it) ++
              [next],
           nextId := st.nextId + 1 },
         .ok (markCompleted today item) next) ∧
      (markCompleted today item).isCompleted = true ∧
      (markCompleted today item).completedDate = some today ∧
      next.itemId = item.itemId ∧
      next.itemType = item.itemType ∧
      next.userId = item.userId ∧
      next.revisionCycle = item.revisionCycle + 1 ∧
      next.isCompleted = false ∧
      next.nextRevisionDate =
        today + (specInterval (item.revisionCycle + 1) : Int) := by
  refine ⟨successorItem st item today, ?_, rfl, rfl, rfl, rfl, rfl, rfl, rfl, ?_⟩
  · simp [completeRevisionItem, hfind]
  · simp [successorItem, daysToAdd_eq_specInterval]

/-- Witness for C1: a concrete cycle-1 item completed on day 19724
(2024-01-02) produces a cycle-2 successor due day 19727 (2024-01-05,
three days later). -/
theorem completeRevisionItem_marks_and_chains_witness :
    ∃ next : RevisionItem,
      completeRevisionItem
          ⟨[⟨1, 7, "problem", 19700, 19701, 1, false, none, 42⟩], 2⟩ 1 19724
          false false =
        ({ items :=
            [⟨1, 7, "problem", 19700, 19701, 1, false, none, 42⟩].map
              (fun it =>
                if it.id == 1 then markCompleted 19724 it else it) ++ [next],
           nextId := 3 },
         .ok (markCompleted 19724
              ⟨1, 7, "problem", 19700, 19701, 1, false, none, 42⟩) next) ∧
      (markCompleted 19724
          ⟨1, 7, "problem", 19700, 19701, 1, false, none, 42⟩).isCompleted =
        true ∧
      (markCompleted 19724
          ⟨1, 7, "problem", 19700, 19701, 1, false, none, 42⟩).completedDate =
        some 19724 ∧
      next.itemId = 7 ∧
      next.itemType = "problem" ∧
      next.userId = 42 ∧
      next.revisionCycle = 2 ∧
      next.isCompleted = false ∧
      next.nextRevisionDate = 19724 + (specInterval 2 : Int) :=
  completeRevisionItem_marks_and_chains
    ⟨[⟨1, 7, "problem", 19700, 19701, 1, false, none, 42⟩], 2⟩ 1 19724
    ⟨1, 7, "problem", 19700, 19701, 1, false, none, 42⟩ (by decide)

/-- C2 counterexample: with the successor-creation write failing after the
completion write succeeded, the operation reports failure but the post-state
holds the item marked completed (at cycle 1) with no cycle-2 successor — the
partially-applied state the claim rules out is reachable, because the two
writes are not wrapped in a transaction. -/
theorem completeRevisionItem_partial_state_reachable :
    (completeRevisionItem
        ⟨[⟨1, 7, "problem", 19700, 19701, 1, false, none, 42⟩], 2⟩ 1 19724
        false true).2 = .error ∧
    (completeRevisionItem
        ⟨[⟨1, 7, "problem", 19700, 19701, 1, false, none, 42⟩], 2⟩ 1 19724
        false true).1.items.map (fun it => (it.isCompleted, it.revisionCycle)) =
      [(true, 1)] := by
  decide

/-- C2 (amended): every execution either succeeds with both writes applied or
reports failure; a successor is never created without the completion write
(the post-state list grows only on success); but when the successor-creation
write fails after the completion write succeeded, the operation reports
failure while the completion write persists, so the state "item marked
completed with its successor missing" is reachable. -/
theorem completeRevisionItem_failure_semantics (st : RevisionStore) (id : Nat)
    (today : Int) (uf cf : Bool) (item : RevisionItem)
    (hfind : st.items.find? (fun it => it.id == id) = some item) :
    ((completeRevisionItem st id today uf cf).2 = .error ∨
      (completeRevisionItem st id today uf cf).2 =
        .ok (markCompleted today item) (successorItem st item today)) ∧
    (∀ a b, (completeRevisionItem st id today uf cf).2 = .ok a b →
      (completeRevisionItem st id today uf cf).1.items =
        st.items.map
          (fun it => if it.id == id then markCompleted today it else it) ++
          [b]) ∧
    ((completeRevisionItem st id today uf cf).2 = .error →
      (completeRevisionItem st id today uf cf).1.items.length =
        st.items.length) ∧
    (uf = false → cf = true →
      (completeRevisionItem st id today uf cf).2 = .error ∧
      (completeRevisionItem st id today uf cf).1.items =
        st.items.map
          (fun it => if it.id == id then markCompleted today it else it)) := by
  cases uf <;> cases cf <;>
    simp [completeRevisionItem, hfind]

/-- Witness for C2: the amended failure semantics applied to a concrete
one-row store (successful execution). -/
theorem completeRevisionItem_failure_semantics_witness :
    ((completeRevisionItem
        ⟨[⟨1, 7, "problem", 19700, 19701, 1, false, none, 42⟩], 2⟩ 1 19724
        false false).2 = .error ∨
      (completeRevisionItem
        ⟨[⟨1, 7, "problem", 19700, 19701, 1, false, none, 42⟩], 2⟩ 1 19724
        false false).2 =
        .ok
          (markCompleted 19724
            ⟨1, 7, "problem", 19700, 19701, 1, false, none, 42⟩)
          (successorItem
            ⟨[⟨1, 7, "problem", 19700, 19701, 1, false, none, 42⟩], 2⟩
            ⟨1, 7, "problem", 19700, 19701, 1, false, none, 42⟩ 19724)) ∧
    (∀ a b, (completeRevisionItem
        ⟨[⟨1, 7, "problem", 19700, 19701, 1, false, none, 42⟩], 2⟩ 1 19724
        false false).2 = .ok a b →
      (completeRevisionItem
        ⟨[⟨1, 7, "problem", 19700, 19701, 1, false, none, 42⟩], 2⟩ 1 19724
        false false).1.items =
        [⟨1, 7, "problem", 19700, 19701, 1, false, none, 42⟩].map
          (fun it => if it.id == 1 then markCompleted 19724 it else it) ++
          [b]) ∧
    ((completeRevisionItem
        ⟨[⟨1, 7, "problem", 19700, 19701, 1, false, none, 42⟩], 2⟩ 1 19724
        false false).2 = .error →
      (completeRevisionItem
        ⟨[⟨1, 7, "problem", 19700, 19701, 1, false, none, 42⟩], 2⟩ 1 19724
        false false).1.items.length = 1) ∧
    (false = false → false = true →
      (completeRevisionItem
        ⟨[⟨1, 7, "problem", 19700, 19701, 1, false, none, 42⟩], 2⟩ 1 19724
        false false).2 = .error ∧
      (completeRevisionItem
        ⟨[⟨1, 7, "problem", 19700, 19701, 1, false, none, 42⟩], 2⟩ 1 19724
        false false).1.items =
        [⟨1, 7, "problem", 19700, 19701, 1, false, none, 42⟩].map
          (fun it => if it.id == 1 then markCompleted 19724 it else it)) :=
  completeRevisionItem_failure_semantics
    ⟨[⟨1, 7, "problem", 19700, 19701, 1, false, none, 42⟩], 2⟩ 1 19724
    false false ⟨1, 7, "problem", 19700, 19701, 1, false, none, 42⟩ (by decide)

/-- C3 counterexample: invoking the complete operation on a RevisionItem whose
`isCompleted` flag is already true is not rejected: the handler re-marks it
completed (refreshing the completion date from 19710 to 19724) and creates an
additional cycle-2 successor. The source never inspects `isCompleted`. -/
theorem completeRevisionItem_accepts_already_completed :
    completeRevisionItem
        ⟨[⟨1, 7, "problem", 19700, 19701, 1, true, some 19710, 42⟩], 2⟩ 1
        19724 false false =
      (⟨[⟨1, 7, "problem", 19700, 19701, 1, true, some 19724, 42⟩,
         ⟨2, 7, "problem", 19700, 19727, 2, false, none, 42⟩], 3⟩,
       .ok ⟨1, 7, "problem", 19700, 19701, 1, true, some 19724, 42⟩
         ⟨2, 7, "problem", 19700, 19727, 2, false, none, 42⟩) := by
  decide

/-- C3 (amended): invoking the complete operation on an already-completed
RevisionItem is not rejected as Invalid Input: it succeeds, re-marks the item
completed with today's date, and creates one more successor at cycle c+1. -/
theorem completeRevisionItem_no_completed_guard (st : RevisionStore) (id : Nat)
    (today : Int) (item : RevisionItem)
    (hfind : st.items.find? (fun it => it.id == id) = some item)
    (hdone : item.isCompleted = true) :
    ∃ next : RevisionItem,
      completeRevisionItem st id today false false =
        ({ items :=
            st.items.map
              (fun it => if it.id == id then markCompleted today it else it) ++
              [next],
           nextId := st.nextId + 1 },
         .ok (markCompleted today item) next) ∧
      next.revisionCycle = item.revisionCycle + 1 ∧
      next.isCompleted = false := by
  refine ⟨successorItem st item today, ?_, rfl, rfl⟩
  simp [completeRevisionItem, hfind]

/-- Witness for C3 (amended): applied to a concrete store holding one
already-completed item. -/
theorem completeRevisionItem_no_completed_guard_witness :
    ∃ next : RevisionItem,
      completeRevisionItem
          ⟨[⟨1, 7, "problem", 19700, 19701, 1, true, some 19710, 42⟩], 2⟩ 1
          19724 false false =
        ({ items :=
            [⟨1, 7, "problem", 19700, 19701, 1, true, some 19710, 42⟩].map
              (fun it =>
                if it.id == 1 then markCompleted 19724 it else it) ++ [next],
           nextId := 3 },
         .ok (markCompleted 19724
              ⟨1, 7, "problem", 19700, 19701, 1, true, some 19710, 42⟩) next) ∧
      next.revisionCycle = 2 ∧
      next.isCompleted = false :=
  completeRevisionItem_no_completed_guard
    ⟨[⟨1, 7, "problem", 19700, 19701, 1, true, some 19710, 42⟩], 2⟩ 1 19724
    ⟨1, 7, "problem", 19700, 19701, 1, true, some 19710, 42⟩ (by decide) rfl

/-- C4: creating a Problem or LearningItem with the mark-for-revision flag set
creates exactly one RevisionItem at cycle 1, due one day after the creation
date, not completed (so creation on 2024-01-01 yields a next revision date of
2024-01-02); without the flag no RevisionItem is created. -/
theorem revisionOnCreate_spec (newId itemId : Nat) (originalDate today : Int)
    (userId : Nat) :
    problemRevisionOnCreate true newId itemId originalDate today userId =
      some ⟨newId, itemId, "problem", originalDate, today + 1, 1, false, none,
        userId⟩ ∧
    problemRevisionOnCreate false newId itemId originalDate today userId =
      none ∧
    learningRevisionOnCreate true newId itemId originalDate today userId =
      some ⟨newId, itemId, "learning", originalDate, today + 1, 1, false, none,
        userId⟩ ∧
    learningRevisionOnCreate false newId itemId originalDate today userId =
      none :=
  ⟨rfl, rfl, rfl, rfl⟩

/-- Problems dated after the walk pointer are passed over without moving it. -/
theorem streakWalk_skip_gt :
    ∀ (A rest : List Problem) (c : Int) (acc : Nat),
      (∀ p ∈ A, c < p.date) →
      streakWalk (A ++ rest) c acc = streakWalk rest c acc
  | [], _, _, _, _ => rfl
  | a :: A, rest, c, acc, h => by
    have ha := h a (List.mem_cons_self a A)
    have h1 : ¬a.date = c := by omega
    have h2 : ¬a.date < c := by omega
    rw [List.cons_append]
    show (if a.date = c then streakWalk (A ++ rest) (c - 1) (acc + 1)
      else if a.date < c then streakWalk (A ++ rest) (c - 1) acc
      else streakWalk (A ++ rest) c acc) = streakWalk rest c acc
    rw [if_neg h1, if_neg h2]
    exact streakWalk_skip_gt A rest c acc
      (fun p hp => h p (List.mem_cons_of_mem a hp))

/-- A nonempty run of problems dated exactly at the walk pointer extends the
streak by one (repeats of the same day are then passed over) and moves the
pointer back one day. -/
theorem streakWalk_run (A rest : List Problem) (c : Int) (acc : Nat)
    (hne : A ≠ []) (h : ∀ p ∈ A, p.date = c) :
    streakWalk (A ++ rest) c acc = streakWalk rest (c - 1) (acc + 1) := by
  match A, hne with
  | a :: A, _ =>
    have ha := h a (List.mem_cons_self a A)
    rw [List.cons_append]
    show (if a.date = c then streakWalk (A ++ rest) (c - 1) (acc + 1)
      else if a.date < c then streakWalk (A ++ rest) (c - 1) acc
      else streakWalk (A ++ rest) c acc) = streakWalk rest (c - 1) (acc + 1)
    rw [if_pos ha]
    exact streakWalk_skip_gt A rest (c - 1) (acc + 1)
      (fun p hp => by
        have := h p (List.mem_cons_of_mem a hp)
        omega)

/-- A list sorted descending by date whose dates all lie in
{t, t-1, t-2} splits into the three runs in order. -/
theorem sorted_partition3 (t : Int) :
    ∀ l : List Problem, l.Pairwise (fun a b => b.date ≤ a.date) →
      (∀ p ∈ l, p.date = t ∨ p.date = t - 1 ∨ p.date = t - 2) →
      ∃ A B C, l = A ++ B ++ C ∧
        (∀ p ∈ A, p.date = t) ∧ (∀ p ∈ B, p.date = t - 1) ∧
        (∀ p ∈ C, p.date = t - 2)
  | [], _, _ => ⟨[], [], [], rfl, by simp, by simp, by simp⟩
  | p :: l, hpw, hmem => by
    obtain ⟨hp, hpw'⟩ := List.pairwise_cons.mp hpw
    obtain ⟨A, B, C, hl, hA, hB, hC⟩ :=
      sorted_partition3 t l hpw'
        (fun q hq => hmem q (List.mem_cons_of_mem p hq))
    rcases hmem p (List.mem_cons_self p l) with h | h | h
    · refine ⟨p :: A, B, C, by simp [hl], ?_, hB, hC⟩
      intro q hq
      rcases List.mem_cons.mp hq with rfl | hq
      · exact h
      · exact hA q hq
    · have hAnil : A = [] := by
        cases A with
        | nil => rfl
        | cons a A' =>
          have haA : a ∈ l := by
            rw [hl]; simp
          have h1 := hp a haA
          have h2 := hA a (List.mem_cons_self a A')
          omega
      subst hAnil
      refine ⟨[], p :: B, C, by simpa using hl, by simp, ?_, hC⟩
      intro q hq
      rcases List.mem_cons.mp hq with rfl | hq
      · exact h
      · exact hB q hq
    · have hAnil : A = [] := by
        cases A with
        | nil => rfl
        | cons a A' =>
          have haA : a ∈ l := by
            rw [hl]; simp
          have h1 := hp a haA
          have h2 := hA a (List.mem_cons_self a A')
          omega
      subst hAnil
      have hBnil : B = [] := by
        cases B with
        | nil => rfl
        | cons b B' =>
          have hbB : b ∈ l := by
            rw [hl]; simp
          have h1 := hp b hbB
          have h2 := hB b (List.mem_cons_self b B')
          omega
      subst hBnil
      refine ⟨[], [], p :: C, by simpa using hl, by simp, by simp, ?_⟩
      intro q hq
      rcases List.mem_cons.mp hq with rfl | hq
      · exact h
      · exact hC q hq

/-- The solved-and-sorted working list of `calculateCurrentStreak`. -/
def solvedSorted (problems : List Problem) : List Problem :=
  (problems.filter (fun p => p.outcome == "solved")).mergeSort dateDesc

/-- Membership in the working list is membership among the solved problems. -/
theorem mem_solvedSorted {p : Problem} {problems : List Problem} :
    p ∈ solvedSorted problems ↔ p ∈ problems ∧ p.outcome = "solved" := by
  unfold solvedSorted
  rw [List.mem_mergeSort, List.mem_filter]
  simp

/-- The working list is sorted descending by date. -/
theorem solvedSorted_pairwise (problems : List Problem) :
    (solvedSorted problems).Pairwise (fun a b => b.date ≤ a.date) := by
  have h := @List.sorted_mergeSort Problem dateDesc
    (fun a b c hab hbc => by
      simp only [dateDesc, decide_eq_true_eq] at *
      omega)
    (fun a b => by
      simp only [dateDesc, Bool.or_eq_true, decide_eq_true_eq]
      omega)
    (problems.filter (fun p => p.outcome == "solved"))
  exact h.imp (fun hab => by
    simpa only [dateDesc, decide_eq_true_eq] using hab)

/-- The streak computation, written over the named working list
(definitionally equal to `calculateCurrentStreak`). -/
theorem calculateCurrentStreak_eq (today : Int) (problems : List Problem) :
    calculateCurrentStreak today problems =
      if (solvedSorted problems).isEmpty then 0
      else if (solvedSorted problems).any (fun p => p.date == today) then
        streakWalk (solvedSorted problems) (today - 1) 1
      else 0 := rfl

/-- C5: the current streak of an empty problem list is 0; it is 0 whenever no
problem is solved on today's calendar date; and for an input whose solved
problems fall on exactly the days {today, today-1, today-2}, each day
occupied, the streak is 3. -/
theorem currentStreak_spec :
    (∀ today : Int, calculateCurrentStreak today [] = 0) ∧
    (∀ (today : Int) (problems : List Problem),
      (∀ p ∈ problems, p.outcome = "solved" → p.date ≠ today) →
      calculateCurrentStreak today problems = 0) ∧
    (∀ (today : Int) (problems : List Problem),
      (∀ p ∈ problems, p.outcome = "solved" →
        p.date = today ∨ p.date = today - 1 ∨ p.date = today - 2) →
      (∃ p ∈ problems, p.outcome = "solved" ∧ p.date = today) →
      (∃ p ∈ problems, p.outcome = "solved" ∧ p.date = today - 1) →
      (∃ p ∈ problems, p.outcome = "solved" ∧ p.date = today - 2) →
      calculateCurrentStreak today problems = 3) := by
  refine ⟨fun today => by rw [calculateCurrentStreak_eq]; simp [solvedSorted], ?_, ?_⟩
  · intro today problems h
    rw [calculateCurrentStreak_eq]
    have hany : (solvedSorted problems).any (fun p => p.date == today) = false := by
      rw [List.any_eq_false]
      intro p hp
      obtain ⟨hp1, hp2⟩ := mem_solvedSorted.mp hp
      simp only [beq_iff_eq]
      exact h p hp1 hp2
    simp [hany]
  · intro t problems hall h0 h1 h2
    obtain ⟨p0, hp0mem, hp0s, hp0d⟩ := h0
    obtain ⟨p1, hp1mem, hp1s, hp1d⟩ := h1
    obtain ⟨p2, hp2mem, hp2s, hp2d⟩ := h2
    have hp0l : p0 ∈ solvedSorted problems := mem_solvedSorted.mpr ⟨hp0mem, hp0s⟩
    have hp1l : p1 ∈ solvedSorted problems := mem_solvedSorted.mpr ⟨hp1mem, hp1s⟩
    have hp2l : p2 ∈ solvedSorted problems := mem_solvedSorted.mpr ⟨hp2mem, hp2s⟩
    obtain ⟨A, B, C, hl, hA, hB, hC⟩ :=
      sorted_partition3 t (solvedSorted problems)
        (solvedSorted_pairwise problems)
        (fun p hp => by
          obtain ⟨hp1', hp2'⟩ := mem_solvedSorted.mp hp
          exact hall p hp1' hp2')
    have hAne : A ≠ [] := by
      have : p0 ∈ A := by
        have := hp0l
        rw [hl] at this
        rcases List.mem_append.mp this with h | h
        · rcases List.mem_append.mp h with h | h
          · exact h
          · have := hB p0 h; omega
        · have := hC p0 h; omega
      exact List.ne_nil_of_mem this
    have hBne : B ≠ [] := by
      have : p1 ∈ B := by
        have := hp1l
        rw [hl] at this
        rcases List.mem_append.mp this with h | h
        · rcases List.mem_append.mp h with h | h
          · have := hA p1 h; omega
          · exact h
        · have := hC p1 h; omega
      exact List.ne_nil_of_mem this
    have hCne : C ≠ [] := by
      have : p2 ∈ C := by
        have := hp2l
        rw [hl] at this
        rcases List.mem_append.mp this with h | h
        · rcases List.mem_append.mp h with h | h
          · have := hA p2 h; omega
          · have := hB p2 h; omega
        · exact h
      exact List.ne_nil_of_mem this
    have hne : (solvedSorted problems).isEmpty = false := by
      rcases hE : solvedSorted problems with _ | _
      · rw [hE] at hp0l
        cases hp0l
      · rfl
    have hany : (solvedSorted problems).any (fun p => p.date == t) = true :=
      List.any_eq_true.mpr ⟨p0, hp0l, by simp [hp0d]⟩
    rw [calculateCurrentStreak_eq, hne, hany]
    show streakWalk (solvedSorted problems) (t - 1) 1 = 3
    rw [hl, List.append_assoc,
      streakWalk_skip_gt A (B ++ C) (t - 1) 1
        (fun p hp => by have := hA p hp; omega),
      streakWalk_run B C (t - 1) 1 hBne hB,
      ← List.append_nil C,
      streakWalk_run C [] (t - 1 - 1) (1 + 1) hCne
        (fun p hp => by have := hC p hp; omega)]
    rfl

/-- Witness for C5: solved problems on days 10, 9 and 8 (with an unsolved
attempt elsewhere) give a streak of 3 on day 10. -/
theorem currentStreak_spec_witness :
    calculateCurrentStreak 10
      [⟨"Arrays", "easy", "solved", 10, 5⟩,
       ⟨"DP", "medium", "solved", 9, 15⟩,
       ⟨"Graphs", "hard", "attempted", 7, 20⟩,
       ⟨"Trees", "easy", "solved", 8, 5⟩] = 3 :=
  currentStreak_spec.2.2 10
    [⟨"Arrays", "easy", "solved", 10, 5⟩,
     ⟨"DP", "medium", "solved", 9, 15⟩,
     ⟨"Graphs", "hard", "attempted", 7, 20⟩,
     ⟨"Trees", "easy", "solved", 8, 5⟩]
    (by decide) (by decide) (by decide) (by decide)

/-- A ratio of a positive count to itself rounds to 100 percent. -/
theorem jsRound100_self (n : Nat) (h : 0 < n) : jsRound100 n n = 100 := by
  unfold jsRound100
  have h2 : 200 * n + n = 2 * n * 100 + n := by ring
  rw [h2, Nat.mul_add_div (by omega)]
  have : n / (2 * n) = 0 := Nat.div_eq_of_lt (by omega)
  omega

/-- On a list all of whose members are solved, the weekly rate expression is
100 for a nonempty list and 0 for an empty one. -/
theorem solvedRate_eq (wp : List Problem)
    (hall : ∀ p ∈ wp, (p.outcome == "solved") = true) :
    (if wp.length > 0 then
      jsRound100 (wp.filter (fun p => p.outcome == "solved")).length wp.length
    else 0) = if wp.length = 0 then 0 else 100 := by
  rcases Nat.eq_zero_or_pos wp.length with h | h
  · simp [h]
  · rw [if_pos h, if_neg (by omega), List.filter_eq_self.mpr hall,
      jsRound100_self wp.length h]

/-- Every weekly entry's success rate is determined by whether its week holds
any solved problem at all. -/
theorem weekEntryFor_rate (problems : List Problem) (ws : Int) (label : Nat) :
    (weekEntryFor problems ws label).successRate =
      if (weekEntryFor problems ws label).problemsSolved = 0 then 0 else 100 := by
  refine solvedRate_eq _ (fun p hp => ?_)
  rw [List.mem_filter] at hp
  have := hp.2
  simp only [Bool.and_eq_true] at this
  exact this.2

/-- C6 counterexample: on an empty problem set every one of the four weekly
entries reports a success rate of 0, not 100 — the `weekProblems.length > 0`
ternary yields 0 for a week with no solved problems. -/
theorem weeklyProgress_rate_not_always_100 :
    (weeklyProgress 0 0 []).map (fun e => e.successRate) = [0, 0, 0, 0] ∧
    ¬∀ e ∈ weeklyProgress 0 0 [], e.successRate = 100 := by
  decide

/-- C6 (amended): the weekly-progress section always has 4 entries (the last
4 Sunday-to-Saturday weeks, oldest first); each entry reports the count of
solved problems in its week, and its success rate is 100 whenever that count
is positive (the rate is computed over the solved-only set) and 0 when the
week has no solved problems. -/
theorem weeklyProgress_structure (today : Int) (dow : Nat)
    (problems : List Problem) :
    (weeklyProgress today dow problems).length = 4 ∧
    ∀ e ∈ weeklyProgress today dow problems,
      e.successRate = if e.problemsSolved = 0 then 0 else 100 := by
  constructor
  · simp [weeklyProgress]
  · intro e he
    obtain ⟨j, _, rfl⟩ := List.mem_map.mp he
    exact weekEntryFor_rate problems _ _

/-- Witness for C6 (amended): the weekly structure at a singleton input
(one problem solved today, which lands in the most recent week). -/
theorem weeklyProgress_structure_witness :
    (weeklyProgress 10 3 [⟨"Arrays", "easy", "solved", 10, 5⟩]).length = 4 ∧
    ∀ e ∈ weeklyProgress 10 3 [⟨"Arrays", "easy", "solved", 10, 5⟩],
      e.successRate = if e.problemsSolved = 0 then 0 else 100 :=
  weeklyProgress_structure 10 3 [⟨"Arrays", "easy", "solved", 10, 5⟩]

/-- The streak of an empty problem list is 0 (shared helper). -/
theorem calculateCurrentStreak_nil (today : Int) :
    calculateCurrentStreak today [] = 0 := by
  rw [calculateCurrentStreak_eq]
  simp [solvedSorted]

/-- Deduplication of the empty list (shared helper). -/
theorem firstOccurrences_nil : firstOccurrences [] = [] := rfl

/-- The sorted topic list of an empty problem set is empty (shared helper). -/
theorem topicAnalysisList_nil : topicAnalysisList [] = [] := by
  simp [topicAnalysisList, firstOccurrences, firstOccurrencesAux]

/-- C7: on empty problem, learning-item and roadmap arrays the aggregator
returns a well-formed all-zero report — zero overview counters, empty topic
and difficulty breakdowns, zeroed daily and weekly sections — and the service
completes with a value rather than an error: every division with a
possibly-zero denominator is short-circuited to 0 by an explicit guard. -/
theorem analytics_empty_all_zero (today : Int) (dow : Nat) :
    calculateOverviewMetrics today [] [] [] = ⟨0, 0, 0, 0, 0, 0, 0⟩ ∧
    calculateTopicAnalysis [] = ⟨[], [], []⟩ ∧
    calculateDifficultyAnalysis [] = ⟨⟨0, 0, 0⟩, ⟨0, 0, 0⟩, ⟨0, 0, 0⟩⟩ ∧
    calculateLearningProgress [] = ⟨0, 0, 0⟩ ∧
    calculateRoadmapProgress [] = ⟨0, 0, 0⟩ ∧
    ((dailyActivity today [] []).all fun e =>
      e.problemsSolved == 0 && e.learningHoursTenths == 0) = true ∧
    (weeklyProgress today dow []).map
      (fun e => (e.problemsSolved, e.successRate)) =
      [(0, 0), (0, 0), (0, 0), (0, 0)] ∧
    getAnalyticsService false today dow [] [] [] =
      .ok (computeAnalytics today dow [] [] []) := by
  refine ⟨?_, ?_, rfl, rfl, rfl, ?_, ?_, rfl⟩
  · simp only [calculateOverviewMetrics, List.map_nil, List.filter_nil,
      calculateCurrentStreak_nil, firstOccurrences_nil]
    rfl
  · simp only [calculateTopicAnalysis, topicAnalysisList_nil, List.map_nil,
      firstOccurrences_nil, List.mergeSort_nil]
    rfl
  · rw [List.all_eq_true]
    intro e he
    unfold dailyActivity at he
    obtain ⟨j, _, rfl⟩ := List.mem_map.mp he
    simp [jsRoundDiv, sumTimeL]
  · rfl

/-- Completed subtopics of a topic are a sublist of all its subtopics, so the
recomputed counters always satisfy completed ≤ total. -/
theorem subtopicCounts_le (subs : List Subtopic) (tid : Nat) :
    (subtopicCounts subs tid).2 ≤ (subtopicCounts subs tid).1 := by
  unfold subtopicCounts
  refine List.Sublist.length_le (List.monotone_filter_right subs ?_)
  intro a ha
  simp only [Bool.and_eq_true] at ha
  exact ha.1

/-- Successful `updateTopicProgress` preserves the counter invariant, leaves
the Subtopic table alone, and makes the target topic's counters agree with a
fresh recomputation. -/
theorem updateTopicProgress_ok (st : RoadmapState) (tid : Nat)
    (hinv : TopicInvariant st) :
    TopicInvariant (updateTopicProgress st tid false).1 ∧
    countersFresh (updateTopicProgress st tid false).1 tid ∧
    (updateTopicProgress st tid false).1.subtopics = st.subtopics := by
  have htop : (updateTopicProgress st tid false).1.topics =
      st.topics.map (fun t =>
        if t.id == tid then
          { t with
            totalSubtopics := (subtopicCounts st.subtopics tid).1
            completedSubtopics := (subtopicCounts st.subtopics tid).2 }
        else t) := rfl
  refine ⟨?_, ?_, rfl⟩
  · intro t ht
    rw [htop] at ht
    obtain ⟨t0, ht0, rfl⟩ := List.mem_map.mp ht
    by_cases h : t0.id == tid
    · rw [if_pos h]
      exact subtopicCounts_le st.subtopics tid
    · rw [if_neg h]
      exact hinv t0 ht0
  · intro t ht htid
    rw [htop] at ht
    obtain ⟨t0, ht0, rfl⟩ := List.mem_map.mp ht
    by_cases h : t0.id == tid
    · rw [if_pos h]
      exact ⟨rfl, rfl⟩
    · rw [if_neg h] at htid ⊢
      rw [beq_iff_eq] at h
      exact absurd htid h

/-- C8: starting from any state satisfying completedSubtopics ≤ totalSubtopics
for every Topic, each operation that mutates a Subtopic (creation, completion,
uncompletion) — and the recomputation itself — preserves the invariant and
leaves the affected topic's counters equal to a fresh recomputation from the
authoritative Subtopic table. The witness instantiates the 3-subtopic
scenario: completing a second subtopic moves the counters from (3,1) to
(3,2) and uncompleting it moves them back to (3,1). -/
theorem topicCounters_spec (st : RoadmapState) (hinv : TopicInvariant st) :
    (∀ tid, TopicInvariant (updateTopicProgress st tid false).1 ∧
      countersFresh (updateTopicProgress st tid false).1 tid) ∧
    (∀ newId tid, TopicInvariant (createSubtopic st newId tid) ∧
      countersFresh (createSubtopic st newId tid) tid) ∧
    (∀ sid today st', completeSubtopic st sid today = some st' →
      TopicInvariant st' ∧
      ∃ s ∈ st.subtopics, s.id = sid ∧ countersFresh st' s.topicId) ∧
    (∀ sid st', uncompleteSubtopic st sid = some st' →
      TopicInvariant st' ∧
      ∃ s ∈ st.subtopics, s.id = sid ∧ countersFresh st' s.topicId) := by
  refine ⟨?_, ?_, ?_, ?_⟩
  · intro tid
    obtain ⟨h1, h2, _⟩ := updateTopicProgress_ok st tid hinv
    exact ⟨h1, h2⟩
  · intro newId tid
    obtain ⟨h1, h2, _⟩ := updateTopicProgress_ok
      { st with
        subtopics := st.subtopics ++
          [{ id := newId, topicId := tid, isCompleted := false,
             completedDate := none }] } tid hinv
    exact ⟨h1, h2⟩
  · intro sid today st' h
    unfold completeSubtopic at h
    cases hf : st.subtopics.find? (fun s => s.id == sid) with
    | none => rw [hf] at h; cases h
    | some s =>
      rw [hf] at h
      obtain rfl : (updateTopicProgress
          { st with
            subtopics := st.subtopics.map (fun x =>
              if x.id == sid then
                { x with isCompleted := true, completedDate := some today }
              else x) } s.topicId false).1 = st' := by
        cases h; rfl
      obtain ⟨h1, h2, _⟩ := updateTopicProgress_ok
        { st with
          subtopics := st.subtopics.map (fun x =>
            if x.id == sid then
              { x with isCompleted := true, completedDate := some today }
            else x) } s.topicId hinv
      exact ⟨h1, s, List.mem_of_find?_eq_some hf,
        by simpa using List.find?_some hf, h2⟩
  · intro sid st' h
    unfold uncompleteSubtopic at h
    cases hf : st.subtopics.find? (fun s => s.id == sid) with
    | none => rw [hf] at h; cases h
    | some s =>
      rw [hf] at h
      obtain rfl : (updateTopicProgress
          { st with
            subtopics := st.subtopics.map (fun x =>
              if x.id == sid then
                { x with isCompleted := false, completedDate := none }
              else x) } s.topicId false).1 = st' := by
        cases h; rfl
      obtain ⟨h1, h2, _⟩ := updateTopicProgress_ok
        { st with
          subtopics := st.subtopics.map (fun x =>
            if x.id == sid then
              { x with isCompleted := false, completedDate := none }
            else x) } s.topicId hinv
      exact ⟨h1, s, List.mem_of_find?_eq_some hf,
        by simpa using List.find?_some hf, h2⟩

/-- Witness for C8: the specification's scenario — a topic with 3 subtopics of
which 1 is completed; completing subtopic 2 yields counters (3,2), and
uncompleting it from that state yields (3,1) again — together with the main
theorem applied to the scenario state. -/
theorem topicCounters_spec_witness :
    completeSubtopic
        ⟨[⟨1, 3, 1⟩],
         [⟨1, 1, true, none⟩, ⟨2, 1, false, none⟩, ⟨3, 1, false, none⟩]⟩ 2 5 =
      some ⟨[⟨1, 3, 2⟩],
        [⟨1, 1, true, none⟩, ⟨2, 1, true, some 5⟩, ⟨3, 1, false, none⟩]⟩ ∧
    uncompleteSubtopic
        ⟨[⟨1, 3, 2⟩],
         [⟨1, 1, true, none⟩, ⟨2, 1, true, some 5⟩, ⟨3, 1, false, none⟩]⟩ 2 =
      some ⟨[⟨1, 3, 1⟩],
        [⟨1, 1, true, none⟩, ⟨2, 1, false, none⟩, ⟨3, 1, false, none⟩]⟩ ∧
    ((∀ tid, TopicInvariant
        (updateTopicProgress
          ⟨[⟨1, 3, 1⟩],
           [⟨1, 1, true, none⟩, ⟨2, 1, false, none⟩, ⟨3, 1, false, none⟩]⟩
          tid false).1 ∧
      countersFresh
        (updateTopicProgress
          ⟨[⟨1, 3, 1⟩],
           [⟨1, 1, true, none⟩, ⟨2, 1, false, none⟩, ⟨3, 1, false, none⟩]⟩
          tid false).1 tid) ∧
    (∀ newId tid, TopicInvariant
        (createSubtopic
          ⟨[⟨1, 3, 1⟩],
           [⟨1, 1, true, none⟩, ⟨2, 1, false, none⟩, ⟨3, 1, false, none⟩]⟩
          newId tid) ∧
      countersFresh
        (createSubtopic
          ⟨[⟨1, 3, 1⟩],
           [⟨1, 1, true, none⟩, ⟨2, 1, false, none⟩, ⟨3, 1, false, none⟩]⟩
          newId tid) tid) ∧
    (∀ sid today st', completeSubtopic
          ⟨[⟨1, 3, 1⟩],
           [⟨1, 1, true, none⟩, ⟨2, 1, false, none⟩, ⟨3, 1, false, none⟩]⟩
          sid today = some st' →
      TopicInvariant st' ∧
      ∃ s ∈ ([⟨1, 1, true, none⟩, ⟨2, 1, false, none⟩,
          ⟨3, 1, false, none⟩] : List Subtopic),
        s.id = sid ∧ countersFresh st' s.topicId) ∧
    (∀ sid st', uncompleteSubtopic
          ⟨[⟨1, 3, 1⟩],
           [⟨1, 1, true, none⟩, ⟨2, 1, false, none⟩, ⟨3, 1, false, none⟩]⟩
          sid = some st' →
      TopicInvariant st' ∧
      ∃ s ∈ ([⟨1, 1, true, none⟩, ⟨2, 1, false, none⟩,
          ⟨3, 1, false, none⟩] : List Subtopic),
        s.id = sid ∧ countersFresh st' s.topicId)) :=
  ⟨by decide, by decide,
    topicCounters_spec
      ⟨[⟨1, 3, 1⟩],
       [⟨1, 1, true, none⟩, ⟨2, 1, false, none⟩, ⟨3, 1, false, none⟩]⟩
      (by decide)⟩

/-- C9 counterexample: a failing persistence call inside `updateTopicProgress`
is caught and replaced by a success-shaped `{totalSubtopics: 0,
completedSubtopics: 0}` return value (the Topic row keeps its stale counters),
even though a fresh recomputation would give (2, 1) — the failure is hidden
from the caller instead of propagating as Internal. -/
theorem updateTopicProgress_swallows_failure :
    updateTopicProgress
        ⟨[⟨1, 2, 1⟩], [⟨1, 1, true, none⟩, ⟨2, 1, false, none⟩]⟩ 1 true =
      (⟨[⟨1, 2, 1⟩], [⟨1, 1, true, none⟩, ⟨2, 1, false, none⟩]⟩,
        .ok (0, 0)) ∧
    subtopicCounts
        ([⟨1, 1, true, none⟩, ⟨2, 1, false, none⟩] : List Subtopic) 1 ≠
      (0, 0) := by
  decide

/-- C9 (amended): the analytics service propagates a persistence failure to
its caller as an Internal error (and otherwise returns the computed report),
but `updateTopicProgress` catches a persistence failure and returns a
success-shaped zeroed result that hides it, leaving the state untouched. -/
theorem persistence_error_propagation (today : Int) (dow : Nat)
    (problems : List Problem) (learningItems : List LearningItem)
    (roadmaps : List Roadmap) (st : RoadmapState) (tid : Nat) :
    getAnalyticsService true today dow problems learningItems roadmaps =
      .internalError ∧
    getAnalyticsService false today dow problems learningItems roadmaps =
      .ok (computeAnalytics today dow problems learningItems roadmaps) ∧
    updateTopicProgress st tid true = (st, .ok (0, 0)) :=
  ⟨rfl, rfl, rfl⟩

/-- C10: whenever the input problems span at most five distinct topics, the
sorted per-topic list has length at most five, so `slice(0, 5)` is the whole
list and `slice(-5)` is the whole list as well: `weakestTopics` is exactly
`strongestTopics` reversed, and the two contain the same entries. -/
theorem weakest_reverse_strongest (problems : List Problem)
    (h : (firstOccurrences (problems.map (fun p => p.topic))).length ≤ 5) :
    (calculateTopicAnalysis problems).weakestTopics =
      (calculateTopicAnalysis problems).strongestTopics.reverse ∧
    ∀ s, s ∈ (calculateTopicAnalysis problems).strongestTopics ↔
      s ∈ (calculateTopicAnalysis problems).weakestTopics := by
  have hlen : (topicAnalysisList problems).length ≤ 5 := by
    unfold topicAnalysisList
    rw [List.length_mergeSort, List.length_map]
    exact h
  have hstrong : (calculateTopicAnalysis problems).strongestTopics =
      topicAnalysisList problems := by
    show (topicAnalysisList problems).take 5 = _
    exact List.take_of_length_le hlen
  have hweak : (calculateTopicAnalysis problems).weakestTopics =
      (topicAnalysisList problems).reverse := by
    show ((topicAnalysisList problems).drop
      ((topicAnalysisList problems).length - 5)).reverse = _
    rw [Nat.sub_eq_zero_of_le hlen, List.drop_zero]
  refine ⟨by rw [hweak, hstrong], fun s => ?_⟩
  rw [hweak, hstrong, List.mem_reverse]

/-- Witness for C10: the two-topic example from the specification (DP and
Arrays). -/
theorem weakest_reverse_strongest_witness :
    (calculateTopicAnalysis
        [⟨"DP", "easy", "solved", 0, 10⟩, ⟨"DP", "easy", "failed", 0, 20⟩,
         ⟨"Arrays", "easy", "solved", 0, 30⟩]).weakestTopics =
      (calculateTopicAnalysis
        [⟨"DP", "easy", "solved", 0, 10⟩, ⟨"DP", "easy", "failed", 0, 20⟩,
         ⟨"Arrays", "easy", "solved", 0, 30⟩]).strongestTopics.reverse ∧
    ∀ s, s ∈ (calculateTopicAnalysis
        [⟨"DP", "easy", "solved", 0, 10⟩, ⟨"DP", "easy", "failed", 0, 20⟩,
         ⟨"Arrays", "easy", "solved", 0, 30⟩]).strongestTopics ↔
      s ∈ (calculateTopicAnalysis
        [⟨"DP", "easy", "solved", 0, 10⟩, ⟨"DP", "easy", "failed", 0, 20⟩,
         ⟨"Arrays", "easy", "solved", 0, 30⟩]).weakestTopics :=
  weakest_reverse_strongest
    [⟨"DP", "easy", "solved", 0, 10⟩, ⟨"DP", "easy", "failed", 0, 20⟩,
     ⟨"Arrays", "easy", "solved", 0, 30⟩] (by decide)

end BBB
